import Mathlib

/-!
Shallow embedding of `src/05_visualize.py` (ATX Fire Department analysis,
step 5: visualization) and proofs about its rendering behaviour.

Tables are embedded row-wise:
* a row of the GeoJSON `response_areas_final` table is a `ResponseAreaRow`;
  a pandas/geopandas missing value (NaN / None) is `Option.none`;
* a row of `summary_by_urban_class.csv` is a `SummaryRow`;
* a pandas DataFrame is a `List` of rows, plus (where a claim needs it) the
  list of column names present in the file.

Renderers are embedded as pure functions from the loaded tables to a value
describing the artifact they write (the set of rendered features, the bar
sequence, the fitted line, the table cells).  File I/O, matplotlib figure
layout and folium HTML generation are not modelled; the data that reaches
the rendering library is.  The `HAS_FOLIUM` import-guard is threaded as a
boolean parameter.  `create_bar_chart` mutates its argument in place
(`summary_df['urban_class'] = pd.Categorical(...)`), so its embedding
returns the caller's table after the call alongside the chart data, and
`main` threads that table on, exactly as the shared Python object would be.
-/

namespace FireViz

/-- One feature of `processed_data/response_areas_final.geojson`.  Numeric
attributes are rationals; a missing attribute (NaN in the frame, `null` in
the GeoJSON properties) is `none`. -/
structure ResponseAreaRow where
  response_area_id : String
  population : Option ℚ
  incidents_per_1000_pop : Option ℚ
  pct_single_family : Option ℚ
  urban_class : Option String
  total_incidents : Option ℚ
deriving Repr, DecidableEq

/-- One row of `outputs/summary_by_urban_class.csv`. -/
structure SummaryRow where
  urban_class : Option String
  population : Option ℚ
  total_incidents : Option ℚ
  incidents_per_1000_pop : Option ℚ
  pct_single_family : Option ℚ
deriving Repr, DecidableEq

/-- Column access `gdf[column]` for the numeric columns of the response-area
table. -/
def getColumn (r : ResponseAreaRow) (column : String) : Option ℚ :=
  if column = "population" then r.population
  else if column = "incidents_per_1000_pop" then r.incidents_per_1000_pop
  else if column = "pct_single_family" then r.pct_single_family
  else if column = "total_incidents" then r.total_incidents
  else none

/-! ### `create_choropleth_map` -/

/-- Outcome of one `create_choropleth_map` call: the early return when folium
is absent, the warn-and-return when no row survives the validity filter, or
the written map carrying the features handed to `folium.Choropleth`. -/
inductive MapResult where
  | skippedNoFolium (filename : String)
  | warnedNoData (warning : String)
  | wrote (path : String) (features : List ResponseAreaRow)
deriving Repr, DecidableEq

/-- The row test of `gdf[gdf[column].notna() & (gdf[column] > 0)]`.
A missing value fails `.notna()`; a present value must be strictly
positive (pandas `NaN > 0` is also false, consistently). -/
def choroplethKeep (column : String) (r : ResponseAreaRow) : Bool :=
  match getColumn r column with
  | some v => decide (0 < v)
  | none => false

/-- The rows of `gdf` (`valid_gdf` in the source) surviving the choropleth validity
filter. -/
def choropleth_valid (gdf : List ResponseAreaRow) (column : String) :
    List ResponseAreaRow :=
  gdf.filter (choroplethKeep column)

/-- Embedding of `create_choropleth_map(gdf, column, title, filename, colormap)`.
The map centering, color bins, tooltip and legend do not change which rows
are rendered; the result records the feature list passed to
`folium.Choropleth` / `folium.GeoJson` and the saved path. -/
def create_choropleth_map (hasFolium : Bool) (gdf : List ResponseAreaRow)
    (column _title filename _colormap : String) : MapResult :=
  if !hasFolium then
    .skippedNoFolium filename
  else
    let valid_gdf := choropleth_valid gdf column
    if valid_gdf.length = 0 then
      .warnedNoData (s!"    Warning: No valid data for {column}")
    else
      .wrote (s!"outputs/{filename}") valid_gdf

/-! ### `create_categorical_map` -/

/-- The default `colors` dict of `create_categorical_map`. -/
def defaultColors : List (String × String) :=
  [("urban_core", "#d62728"),
   ("inner_suburban", "#ff7f0e"),
   ("outer_suburban", "#2ca02c"),
   ("unknown", "#7f7f7f")]

/-- Python `d.get(k, default)` on an association list. -/
def dictGet (d : List (String × String)) (k : String) (dflt : String) :
    String :=
  match d.find? (fun p => p.1 = k) with
  | some p => p.2
  | none => dflt

/-- The `style_function` fill color for one feature:
`colors.get(feature['properties'].get(column, 'unknown'), '#7f7f7f')`.
Every table column is a key of the GeoJSON properties, so for the
`urban_class` column the `.get` default never fires; a missing value is
`null`, and `colors.get(None, '#7f7f7f')` falls back to gray. -/
def categorical_style (colors : List (String × String))
    (category : Option String) : String :=
  match category with
  | some c => dictGet colors c "#7f7f7f"
  | none => "#7f7f7f"

/-- Outcome of `create_categorical_map`: skipped without folium, else the
written map with one `(feature, fill color)` per input row — the function
has no row filter. -/
inductive CatMapResult where
  | skippedNoFolium (filename : String)
  | wrote (path : String) (features : List (ResponseAreaRow × String))
deriving Repr, DecidableEq

/-- Embedding of `create_categorical_map(gdf, column, title, filename, colors=None)`,
called in `main` with `column = 'urban_class'`.  The whole `gdf` is handed
to `folium.GeoJson`; each feature is styled by `style_function`. -/
def create_categorical_map (hasFolium : Bool) (gdf : List ResponseAreaRow)
    (_title filename : String)
    (colors : Option (List (String × String)) := none) : CatMapResult :=
  if !hasFolium then
    .skippedNoFolium filename
  else
    let cs := colors.getD defaultColors
    .wrote (s!"outputs/{filename}")
      (gdf.map (fun r => (r, categorical_style cs r.urban_class)))

/-! ### `create_bar_chart` -/

/-- The fixed category order of `create_bar_chart`. -/
def order : List String := ["urban_core", "inner_suburban", "outer_suburban"]

/-- The `labels` dict mapping a class to its x-tick display label. -/
def barLabels : List (String × String) :=
  [("urban_core", "Urban Core\n(>10k/sq mi)"),
   ("inner_suburban", "Inner Suburban\n(3-10k/sq mi)"),
   ("outer_suburban", "Outer Suburban\n(<3k/sq mi)")]

/-- Effect of `pd.Categorical(values, categories=order)` on one cell: a value outside
the category list becomes missing (NaN); a missing value stays missing. -/
def toCategorical (r : SummaryRow) : SummaryRow :=
  { r with urban_class :=
      match r.urban_class with
      | some c => if c ∈ order then some c else none
      | none => none }

/-- The sort key of `sort_values('urban_class')` on the categorical column:
the category code, with missing values placed last (`na_position='last'`). -/
def catCode (c : Option String) : Nat :=
  match c with
  | some s => order.indexOf s
  | none => order.length

/-- Row comparison used by `sort_values('urban_class')`. -/
def catLE (a b : SummaryRow) : Prop :=
  catCode a.urban_class ≤ catCode b.urban_class

instance : DecidableRel catLE := fun a b =>
  Nat.decLe (catCode a.urban_class) (catCode b.urban_class)

instance : IsTotal SummaryRow catLE :=
  ⟨fun a b => Nat.le_total (catCode a.urban_class) (catCode b.urban_class)⟩

instance : IsTrans SummaryRow catLE := ⟨fun _ _ _ => Nat.le_trans⟩

/-- Embedding of `summary_df.sort_values('urban_class')`: sort by category code, missing
last.  (pandas does not promise a stable tie order; any sorted permutation
models it.) -/
def sortValues (l : List SummaryRow) : List SummaryRow :=
  List.insertionSort catLE l

/-- Python `labels.get(c, c)`: display label for a class, the class itself when it
has no label, missing (NaN) when the class is missing. -/
def displayLabel (c : Option String) : Option String :=
  match c with
  | some s => some (dictGet barLabels s s)
  | none => none

/-- The data drawn by the two bar panels: one x-tick label, one left-panel
height and one right-panel height per row of the (reordered) table. -/
structure BarChartRender where
  x_labels : List (Option String)
  rate_values : List (Option ℚ)
  pct_values : List (Option ℚ)
deriving Repr, DecidableEq

/-- Embedding of `create_bar_chart(summary_df, filename)`.  The categorical column
assignment mutates the caller's frame in place; the subsequent
`summary_df = summary_df.sort_values(...)` only rebinds the local name.
Returns the rendered bar data together with the caller's table as it is
left after the call. -/
def create_bar_chart (summary_df : List SummaryRow) (_filename : String) :
    BarChartRender × List SummaryRow :=
  let mutated := summary_df.map toCategorical
  let sorted := sortValues mutated
  ({ x_labels := sorted.map (fun r => displayLabel r.urban_class),
     rate_values := sorted.map (fun r => r.incidents_per_1000_pop),
     pct_values := sorted.map (fun r => r.pct_single_family) },
   mutated)

/-! ### `create_scatter_plot` -/

/-- The row test of the scatter plot's `valid` filter:
`(population > 100) & pct_single_family.notna() &
incidents_per_1000_pop.notna() & (urban_class != 'unknown')`.
Pandas semantics at missing values: `NaN > 100` is false, but
`NaN != 'unknown'` is TRUE, so a row with a missing `urban_class` passes
the last conjunct. -/
def scatterKeep (r : ResponseAreaRow) : Bool :=
  (match r.population with
   | some p => decide (100 < p)
   | none => false) &&
  r.pct_single_family.isSome &&
  r.incidents_per_1000_pop.isSome &&
  (match r.urban_class with
   | some c => decide (c ≠ "unknown")
   | none => true)

/-- The rows (`valid` in the source) surviving the scatter plot's filter. -/
def scatter_valid (gdf : List ResponseAreaRow) : List ResponseAreaRow :=
  gdf.filter scatterKeep

/-- The `(x, y) = (pct_single_family, incidents_per_1000_pop)` pairs handed
to `stats.linregress`; the filter guarantees both are present. -/
def regressionData (gdf : List ResponseAreaRow) : List (ℚ × ℚ) :=
  (scatter_valid gdf).map
    (fun r => (r.pct_single_family.getD 0, r.incidents_per_1000_pop.getD 0))

def sumX (pts : List (ℚ × ℚ)) : ℚ := (pts.map Prod.fst).sum

def sumY (pts : List (ℚ × ℚ)) : ℚ := (pts.map Prod.snd).sum

def sumXY (pts : List (ℚ × ℚ)) : ℚ := (pts.map (fun p => p.1 * p.2)).sum

def sumX2 (pts : List (ℚ × ℚ)) : ℚ := (pts.map (fun p => p.1 * p.1)).sum

def sumY2 (pts : List (ℚ × ℚ)) : ℚ := (pts.map (fun p => p.2 * p.2)).sum

/-- Quantity `n·Σ(x-x̄)² = n²·ssxm` of `scipy.stats.linregress`, in raw-sum
form. -/
def sSxx (pts : List (ℚ × ℚ)) : ℚ :=
  pts.length * sumX2 pts - sumX pts * sumX pts

/-- Quantity `n·Σ(x-x̄)(y-ȳ)` in raw-sum form. -/
def sSxy (pts : List (ℚ × ℚ)) : ℚ :=
  pts.length * sumXY pts - sumX pts * sumY pts

/-- Quantity `n·Σ(y-ȳ)²` in raw-sum form. -/
def sSyy (pts : List (ℚ × ℚ)) : ℚ :=
  pts.length * sumY2 pts - sumY pts * sumY pts

/-- The OLS slope `ssxym / ssxm` computed by `stats.linregress` (the common
factor `n` of the raw-sum form cancels). -/
def fitSlope (pts : List (ℚ × ℚ)) : ℚ := sSxy pts / sSxx pts

/-- The OLS intercept `ymean - slope * xmean` of `stats.linregress`. -/
def fitIntercept (pts : List (ℚ × ℚ)) : ℚ :=
  (sumY pts - fitSlope pts * sumX pts) / pts.length

/-- Scipy's degeneracy test `np.amax(x) == np.amin(x)`: every x value of
the dataset equals the first. -/
def allXIdentical (pts : List (ℚ × ℚ)) : Bool :=
  match pts with
  | [] => true
  | p :: rest => rest.all (fun q => decide (q.1 = p.1))

/-- Embedding of `stats.linregress(x, y)` and its two error paths: it
raises `ValueError("Inputs must not be empty.")` on empty inputs, then
`ValueError("Cannot calculate a linear regression if all x values are
identical")` when `np.amax(x) == np.amin(x) and len(x) > 1`, and otherwise
returns the fit.  (For a single point scipy's division by zero yields NaN
with a warning, not an error; the rational embedding yields 0 there —
neither is an error outcome.)  The correlation coefficient is
`sSxy / √(sSxx·sSyy)`, stated where needed rather than stored, to keep the
embedding computable. -/
def linregress (pts : List (ℚ × ℚ)) : Except String (ℚ × ℚ) :=
  if pts.isEmpty then .error "Inputs must not be empty."
  else if allXIdentical pts = true ∧ 1 < pts.length then
    .error "Cannot calculate a linear regression if all x values are identical"
  else .ok (fitSlope pts, fitIntercept pts)

/-- The artifact of `create_scatter_plot`: the fit overlaid on the bubble
data drawn from the filtered rows. -/
structure ScatterOutput where
  path : String
  points : List (ℚ × ℚ)
  slope : ℚ
  intercept : ℚ
deriving Repr, DecidableEq

/-- Embedding of `create_scatter_plot(gdf, filename)`.  There is no empty-data guard:
`stats.linregress` is called unconditionally on the filtered rows, so its
`ValueError` propagates. -/
def create_scatter_plot (gdf : List ResponseAreaRow) (filename : String) :
    Except String ScatterOutput :=
  let pts := regressionData gdf
  match linregress pts with
  | .error e => .error e
  | .ok mb =>
    .ok { path := s!"outputs/{filename}", points := pts,
          slope := mb.1, intercept := mb.2 }

/-! ### `create_summary_table_image` -/

/-- The `display_cols` source-to-display renaming, in its fixed order. -/
def display_cols : List (String × String) :=
  [("urban_class", "Classification"),
   ("population", "Population"),
   ("total_incidents", "Total Incidents"),
   ("incidents_per_1000_pop", "Rate per 1,000 Pop"),
   ("pct_single_family", "% Single-Family")]

/-- A formatted table cell: which f-string formatter was applied, to which
value (`f-string` formatting of a NaN renders the text `nan`, no error). -/
inductive Cell where
  | classification (c : Option String)
  | thousands (v : Option ℚ)
  | rate2 (v : Option ℚ)
  | pct1 (v : Option ℚ)
deriving Repr, DecidableEq

/-- The per-column formatting of `create_summary_table_image`. -/
def formatCell (src : String) (r : SummaryRow) : Cell :=
  if src = "population" then .thousands r.population
  else if src = "total_incidents" then .thousands r.total_incidents
  else if src = "incidents_per_1000_pop" then .rate2 r.incidents_per_1000_pop
  else if src = "pct_single_family" then .pct1 r.pct_single_family
  else .classification r.urban_class

/-- The rendered table: title, header (`colLabels`) and body (`cellText`). -/
structure TableImage where
  title : String
  colLabels : List String
  cellText : List (List Cell)
deriving Repr, DecidableEq

/-- Embedding of `create_summary_table_image(summary_df, filename)`, with the frame's
column list made explicit: `[c for c in display_cols.keys() if c in
summary_df.columns]` keeps only the expected columns actually present. -/
def create_summary_table_image (cols : List String)
    (summary_df : List SummaryRow) (_filename : String) : TableImage :=
  let selected := display_cols.filter (fun p => cols.contains p.1)
  { title := "Fire Incident Rates by Urban Classification",
    colLabels := selected.map Prod.snd,
    cellText := summary_df.map (fun r => selected.map (fun p => formatCell p.1 r)) }

/-! ### `main` -/

/-- Everything `main` renders: the three maps (absent when folium is
absent), the two charts and the table image, plus whether the
folium-missing notice was printed. -/
structure MainOutputs where
  map_incidents_per_capita : Option MapResult
  map_urban_classification : Option CatMapResult
  map_housing_typology : Option MapResult
  chart_urban_comparison : BarChartRender
  chart_housing_correlation : ScatterOutput
  table_summary : TableImage
  folium_note : Bool
deriving Repr, DecidableEq

/-- Embedding of `main()`, after `load_data`: the loaded tables are parameters (the
summary frame with its column list), `HAS_FOLIUM` is threaded as a boolean.
Maps are rendered first; then the bar chart (which mutates the shared
`summary_urban` frame in place), then the scatter plot (whose uncaught
`ValueError` aborts the rest), then the table image from the same shared
frame.  The final `os.listdir` report is not modelled. -/
def main (hasFolium : Bool) (ra : List ResponseAreaRow)
    (summary_urban_cols : List String) (summary_urban : List SummaryRow) :
    Except String MainOutputs :=
  let m1 := if hasFolium then
      some (create_choropleth_map true ra "incidents_per_1000_pop"
        "Fire Incidents per 1,000 Population" "map_incidents_per_capita.html"
        "YlOrRd")
    else none
  let m2 := if hasFolium then
      some (create_categorical_map true ra "Urban Classification"
        "map_urban_classification.html")
    else none
  let m3 := if hasFolium then
      some (create_choropleth_map true ra "pct_single_family"
        "% Single-Family Housing" "map_housing_typology.html" "RdYlGn_r")
    else none
  let bar := create_bar_chart summary_urban "chart_urban_comparison.png"
  match create_scatter_plot ra "chart_housing_correlation.png" with
  | .error e => .error e
  | .ok sc =>
    .ok { map_incidents_per_capita := m1,
          map_urban_classification := m2,
          map_housing_typology := m3,
          chart_urban_comparison := bar.1,
          chart_housing_correlation := sc,
          table_summary :=
            create_summary_table_image summary_urban_cols bar.2
              "table_summary.png",
          folium_note := !hasFolium }

/-! ### Concrete tables used in counterexamples and witnesses -/

/-- A response area with `urban_class` missing but every other scatter-filter
field valid. -/
def rowMissingClass : ResponseAreaRow :=
  { response_area_id := "A-01", population := some 500,
    incidents_per_1000_pop := some 5, pct_single_family := some 50,
    urban_class := none, total_incidents := some 2 }

/-- A response area with population 50 (the spec's own example of a row that
must not reach the fit). -/
def rowPop50 : ResponseAreaRow :=
  { response_area_id := "A-02", population := some 50,
    incidents_per_1000_pop := some 3, pct_single_family := some 40,
    urban_class := some "urban_core", total_incidents := some 1 }

/-- A response area whose per-capita rate is exactly 0. -/
def rowZeroInc : ResponseAreaRow :=
  { response_area_id := "A-03", population := some 800,
    incidents_per_1000_pop := some 0, pct_single_family := some 60,
    urban_class := some "outer_suburban", total_incidents := some 0 }

/-- A fully valid response area. -/
def rowValid : ResponseAreaRow :=
  { response_area_id := "A-04", population := some 900,
    incidents_per_1000_pop := some 5, pct_single_family := some 50,
    urban_class := some "urban_core", total_incidents := some 4 }

/-- Two response areas lying exactly on `incidents = 2 × pct_single_family`. -/
def rowFit1 : ResponseAreaRow :=
  { response_area_id := "A-05", population := some 200,
    incidents_per_1000_pop := some 20, pct_single_family := some 10,
    urban_class := some "urban_core", total_incidents := some 4 }

def rowFit2 : ResponseAreaRow :=
  { response_area_id := "A-06", population := some 300,
    incidents_per_1000_pop := some 60, pct_single_family := some 30,
    urban_class := some "inner_suburban", total_incidents := some 18 }

/-- The table of the two exact-fit rows. -/
def gdfFit : List ResponseAreaRow := [rowFit1, rowFit2]

/-- A summary table given in the order `outer_suburban, urban_core,
inner_suburban, unknown` (the spec's reordering example plus a row outside
the three-class set). -/
def suCex : List SummaryRow :=
  [{ urban_class := some "outer_suburban", population := some 1000,
     total_incidents := some 3, incidents_per_1000_pop := some 3,
     pct_single_family := some 30 },
   { urban_class := some "urban_core", population := some 2000,
     total_incidents := some 2, incidents_per_1000_pop := some 1,
     pct_single_family := some 10 },
   { urban_class := some "inner_suburban", population := some 3000,
     total_incidents := some 6, incidents_per_1000_pop := some 2,
     pct_single_family := some 20 },
   { urban_class := some "unknown", population := some 4000,
     total_incidents := some 16, incidents_per_1000_pop := some 4,
     pct_single_family := some 40 }]

/-- The five expected source columns, all present. -/
def cols5 : List String :=
  ["urban_class", "population", "total_incidents",
   "incidents_per_1000_pop", "pct_single_family"]

/-- The four columns left when `total_incidents` is absent from the file. -/
def cols4 : List String :=
  ["urban_class", "population", "incidents_per_1000_pop",
   "pct_single_family"]

/-! ### Helper lemmas -/

theorem choroplethKeep_eq_true_iff (column : String) (r : ResponseAreaRow) :
    choroplethKeep column r = true ↔
      ∃ v, getColumn r column = some v ∧ 0 < v := by
  unfold choroplethKeep
  cases h : getColumn r column with
  | none => simp
  | some v => simp [decide_eq_true_iff]

theorem categorical_style_defaultColors (c : Option String) :
    categorical_style defaultColors c =
      if c = some "urban_core" then "#d62728"
      else if c = some "inner_suburban" then "#ff7f0e"
      else if c = some "outer_suburban" then "#2ca02c"
      else "#7f7f7f" := by
  cases c with
  | none => rfl
  | some s =>
    by_cases h1 : s = "urban_core"
    · subst h1; rfl
    by_cases h2 : s = "inner_suburban"
    · subst h2; rfl
    by_cases h3 : s = "outer_suburban"
    · subst h3; rfl
    by_cases h4 : s = "unknown"
    · subst h4; rfl
    have h1s : ¬("urban_core" = s) := fun h => h1 h.symm
    have h2s : ¬("inner_suburban" = s) := fun h => h2 h.symm
    have h3s : ¬("outer_suburban" = s) := fun h => h3 h.symm
    have h4s : ¬("unknown" = s) := fun h => h4 h.symm
    simp [categorical_style, dictGet, defaultColors, List.find?,
      h1, h2, h3, h1s, h2s, h3s, h4s]

/-! ### C3: the continuous choropleth's validity filter -/

/-- C3: a row is among the features the continuous choropleth renders iff
it is a row of the table whose mapped metric is present and strictly
positive; when any row survives, the written map carries exactly the
filtered rows.  Rows with a missing or non-positive metric are absent. -/
theorem choropleth_filters_nonpositive_and_missing
    (gdf : List ResponseAreaRow) (column t f cm : String)
    (r : ResponseAreaRow) (hne : choropleth_valid gdf column ≠ []) :
    (r ∈ choropleth_valid gdf column ↔
      r ∈ gdf ∧ ∃ v, getColumn r column = some v ∧ 0 < v) ∧
    create_choropleth_map true gdf column t f cm =
      MapResult.wrote (s!"outputs/{f}") (choropleth_valid gdf column) := by
  constructor
  · rw [choropleth_valid, List.mem_filter]
    simp [choroplethKeep_eq_true_iff]
  · unfold create_choropleth_map
    simp [hne, List.length_eq_zero]

/-- Witness for C3 at a concrete table: the zero-rate row is filtered out,
the valid row is rendered. -/
theorem choropleth_filters_witness :
    (rowValid ∈ choropleth_valid [rowValid, rowZeroInc]
        "incidents_per_1000_pop" ↔
      rowValid ∈ [rowValid, rowZeroInc] ∧
        ∃ v, getColumn rowValid "incidents_per_1000_pop" = some v ∧ 0 < v) ∧
    create_choropleth_map true [rowValid, rowZeroInc]
        "incidents_per_1000_pop" "Fire Incidents per 1,000 Population"
        "map_incidents_per_capita.html" "YlOrRd" =
      MapResult.wrote "outputs/map_incidents_per_capita.html" [rowValid] :=
  choropleth_filters_nonpositive_and_missing
    [rowValid, rowZeroInc] "incidents_per_1000_pop"
    "Fire Incidents per 1,000 Population" "map_incidents_per_capita.html"
    "YlOrRd" rowValid (by decide)

/-! ### C4: the categorical map -/

/-- C4: the categorical map renders exactly one feature per input row — the
feature list is the row list itself, unfiltered, paired with a fill color
that is red for `urban_core`, orange for `inner_suburban`, green for
`outer_suburban`, and gray for every other class, a missing one included;
no input can make the style lookup fail. -/
theorem categorical_map_feature_per_row_and_colors
    (gdf : List ResponseAreaRow) (t f : String) :
    create_categorical_map true gdf t f =
      CatMapResult.wrote (s!"outputs/{f}")
        (gdf.map (fun r => (r,
          if r.urban_class = some "urban_core" then "#d62728"
          else if r.urban_class = some "inner_suburban" then "#ff7f0e"
          else if r.urban_class = some "outer_suburban" then "#2ca02c"
          else "#7f7f7f"))) := by
  have hfun : (fun r : ResponseAreaRow =>
      (r, categorical_style defaultColors r.urban_class)) =
      (fun r : ResponseAreaRow => (r,
        if r.urban_class = some "urban_core" then "#d62728"
        else if r.urban_class = some "inner_suburban" then "#ff7f0e"
        else if r.urban_class = some "outer_suburban" then "#2ca02c"
        else "#7f7f7f")) :=
    funext fun r => by rw [categorical_style_defaultColors]
  unfold create_categorical_map
  rw [show (none : Option (List (String × String))).getD defaultColors =
    defaultColors from rfl]
  simp [hfun]

/-! ### C5: empty choropleth data warns and skips -/

/-- C5: when no row of the table survives the missing-or-nonpositive filter
for the mapped metric, `create_choropleth_map` returns the warn-and-skip
outcome: the warning text is produced, no path and no features are emitted,
and no exception is raised (the embedding is a total function). -/
theorem choropleth_empty_warns_and_skips
    (gdf : List ResponseAreaRow) (column t f cm : String)
    (h : choropleth_valid gdf column = []) :
    create_choropleth_map true gdf column t f cm =
      MapResult.warnedNoData (s!"    Warning: No valid data for {column}") := by
  unfold create_choropleth_map
  simp [h]

/-- Witness for C5: a table whose only row has a zero rate. -/
theorem choropleth_empty_warns_witness :
    create_choropleth_map true [rowZeroInc] "incidents_per_1000_pop"
        "Fire Incidents per 1,000 Population" "map_incidents_per_capita.html"
        "YlOrRd" =
      MapResult.warnedNoData
        "    Warning: No valid data for incidents_per_1000_pop" :=
  choropleth_empty_warns_and_skips [rowZeroInc] "incidents_per_1000_pop"
    "Fire Incidents per 1,000 Population" "map_incidents_per_capita.html"
    "YlOrRd" (by decide)

/-! ### C1: the scatter plot's row filter -/

theorem scatterKeep_eq_true_iff (r : ResponseAreaRow) :
    scatterKeep r = true ↔
      (∃ p, r.population = some p ∧ 100 < p) ∧
      r.pct_single_family.isSome = true ∧
      r.incidents_per_1000_pop.isSome = true ∧
      r.urban_class ≠ some "unknown" := by
  unfold scatterKeep
  cases hp : r.population <;> cases hu : r.urban_class <;>
    simp [hp, hu, decide_eq_true_iff, Bool.and_eq_true, and_assoc]

/-- C1 counterexample: a row whose `urban_class` is missing — population
500, both metrics present — passes the scatter plot's filter (pandas
`NaN != 'unknown'` is true) and its `(x, y)` pair reaches the regression,
so the claim's "urban_class is 'unknown' **or missing** ⇒ excluded from
the fitted line" is false on the code. -/
theorem scatter_missing_class_contributes_cex :
    scatterKeep rowMissingClass = true ∧
    scatter_valid [rowMissingClass] = [rowMissingClass] ∧
    rowMissingClass.urban_class = none ∧
    regressionData [rowMissingClass] = [(50, 5)] := by decide

/-- C1 amended: the scatter plot keeps exactly the rows with a present
population above 100, both metrics present, and `urban_class` not equal to
the string `'unknown'` — a row with a *missing* `urban_class` passing the
other checks is kept; the OLS fit is computed over exactly the kept rows'
`(pct_single_family, incidents_per_1000_pop)` pairs — unless the regression
call itself raises, which it does exactly when no pair remains (empty
input) or at least two pairs remain and every x value is identical. -/
theorem scatter_filter_amended_characterization
    (gdf : List ResponseAreaRow) (r : ResponseAreaRow) (f : String) :
    (r ∈ scatter_valid gdf ↔ r ∈ gdf ∧
      (∃ p, r.population = some p ∧ 100 < p) ∧
      r.pct_single_family.isSome = true ∧
      r.incidents_per_1000_pop.isSome = true ∧
      r.urban_class ≠ some "unknown") ∧
    ((∃ out, create_scatter_plot gdf f = Except.ok out ∧
        out.points = regressionData gdf) ∨
      (regressionData gdf = [] ∧
        create_scatter_plot gdf f =
          Except.error "Inputs must not be empty.") ∨
      (regressionData gdf ≠ [] ∧
        allXIdentical (regressionData gdf) = true ∧
        1 < (regressionData gdf).length ∧
        create_scatter_plot gdf f = Except.error
          "Cannot calculate a linear regression if all x values are identical")) := by
  constructor
  · rw [scatter_valid, List.mem_filter]
    simp [scatterKeep_eq_true_iff]
  · by_cases hE : regressionData gdf = []
    · exact Or.inr (Or.inl
        ⟨hE, by simp [create_scatter_plot, linregress, hE]⟩)
    · by_cases hI : allXIdentical (regressionData gdf) = true ∧
        1 < (regressionData gdf).length
      · exact Or.inr (Or.inr ⟨hE, hI.1, hI.2,
          by simp [create_scatter_plot, linregress, hE, hI.1, hI.2]⟩)
      · refine Or.inl ⟨⟨s!"outputs/{f}", regressionData gdf,
          fitSlope (regressionData gdf), fitIntercept (regressionData gdf)⟩,
          ?_, rfl⟩
        simp [create_scatter_plot, linregress, hE, hI]

/-! ### C2: the bar chart's reordering step -/

/-- C2 counterexample: on input order `outer_suburban, urban_core,
inner_suburban, unknown`, the three known classes do come out in the fixed
order, but the `unknown` row is **not** dropped by the reordering: it is
coerced to a missing category, sorted last, and its bar data (label `NaN`,
heights 4 and 40) is still handed to both panels — four bars, not three. -/
theorem bar_chart_unknown_row_not_dropped_cex :
    (create_bar_chart suCex "chart_urban_comparison.png").1.x_labels =
      [some "Urban Core\n(>10k/sq mi)", some "Inner Suburban\n(3-10k/sq mi)",
       some "Outer Suburban\n(<3k/sq mi)", none] ∧
    (create_bar_chart suCex "chart_urban_comparison.png").1.rate_values =
      [some 1, some 2, some 3, some 4] ∧
    (create_bar_chart suCex "chart_urban_comparison.png").1.pct_values =
      [some 10, some 20, some 30, some 40] := by decide

/-- C2 amended: the bar panels are drawn from the table sorted by the fixed
category order `urban_core, inner_suburban, outer_suburban` with
out-of-set classes coerced to missing and placed last — for every input
ordering the reordered rows are a permutation of the (categorically
retyped) input, sorted by category code, every still-present class lies in
the three-element set, and nothing is dropped: one x-label per input row. -/
theorem bar_chart_fixed_order_amended
    (input : List SummaryRow) (f : String) (r : SummaryRow) (c : String)
    (hr : r ∈ input.map toCategorical) (hc : r.urban_class = some c) :
    c ∈ order ∧
    (create_bar_chart input f).1.x_labels.length = input.length ∧
    (create_bar_chart input f).1.x_labels =
      (sortValues (input.map toCategorical)).map
        (fun s => displayLabel s.urban_class) ∧
    List.Sorted catLE (sortValues (input.map toCategorical)) ∧
    List.Perm (sortValues (input.map toCategorical))
      (input.map toCategorical) := by
  refine ⟨?_, ?_, rfl, ?_, ?_⟩
  · obtain ⟨r0, _, rfl⟩ := List.mem_map.mp hr
    cases h0 : r0.urban_class with
    | none => simp [toCategorical, h0] at hc
    | some c0 =>
      by_cases hin : c0 ∈ order
      · simp [toCategorical, h0, hin] at hc
        exact hc ▸ hin
      · simp [toCategorical, h0, hin] at hc
  · show ((sortValues (input.map toCategorical)).map _).length = input.length
    rw [List.length_map, sortValues, List.length_insertionSort,
      List.length_map]
  · exact List.sorted_insertionSort catLE (input.map toCategorical)
  · exact List.perm_insertionSort catLE (input.map toCategorical)

/-- Witness for C2 at the counterexample table, instantiated at its
`urban_core` row. -/
theorem bar_chart_fixed_order_amended_witness :
    "urban_core" ∈ order ∧
    (create_bar_chart suCex "chart_urban_comparison.png").1.x_labels.length =
      suCex.length ∧
    (create_bar_chart suCex "chart_urban_comparison.png").1.x_labels =
      (sortValues (suCex.map toCategorical)).map
        (fun s => displayLabel s.urban_class) ∧
    List.Sorted catLE (sortValues (suCex.map toCategorical)) ∧
    List.Perm (sortValues (suCex.map toCategorical))
      (suCex.map toCategorical) :=
  bar_chart_fixed_order_amended suCex "chart_urban_comparison.png"
    { urban_class := some "urban_core", population := some 2000,
      total_incidents := some 2, incidents_per_1000_pop := some 1,
      pct_single_family := some 10 }
    "urban_core" (by decide) (by decide)

/-! ### C10: no empty-data guard in the scatter plot -/

/-- C10: the scatter plot has no empty-data guard — when no row survives its
filter, the unconditional `stats.linregress` call raises, and `main`, which
does not catch it, aborts with the same error instead of the choropleth's
warn-and-skip. -/
theorem scatter_empty_input_raises
    (gdf : List ResponseAreaRow) (f : String) (hasFolium : Bool)
    (cols : List String) (su : List SummaryRow)
    (h : scatter_valid gdf = []) :
    create_scatter_plot gdf f = Except.error "Inputs must not be empty." ∧
    main hasFolium gdf cols su =
      Except.error "Inputs must not be empty." := by
  have hE : regressionData gdf = [] := by rw [regressionData, h]; rfl
  have h1 : ∀ g : String, create_scatter_plot gdf g =
      Except.error "Inputs must not be empty." := fun g => by
    simp [create_scatter_plot, linregress, hE]
  exact ⟨h1 f, by simp [main, h1]⟩

/-- Witness for C10: a table whose only row has population 50 (the spec's
example row), so the scatter filter keeps nothing. -/
theorem scatter_empty_input_raises_witness :
    create_scatter_plot [rowPop50] "chart_housing_correlation.png" =
      Except.error "Inputs must not be empty." ∧
    main true [rowPop50] cols5 suCex =
      Except.error "Inputs must not be empty." :=
  scatter_empty_input_raises [rowPop50] "chart_housing_correlation.png"
    true cols5 suCex (by decide)

/-! ### C6: degrade gracefully without folium -/

/-- C6: with folium unavailable, `main` produces none of the three map
documents, prints the informational notice, and still renders the bar
chart, the scatter plot and the table image, completing without error —
provided the scatter data is nonempty and its x values are not all
identical with two or more rows; those two `stats.linregress` errors are
the only failures `main` can hit, and both are independent of folium
availability. -/
theorem main_no_folium_degrades_gracefully
    (ra : List ResponseAreaRow) (cols : List String) (su : List SummaryRow)
    (h : scatter_valid ra ≠ [])
    (hI : ¬(allXIdentical (regressionData ra) = true ∧
      1 < (regressionData ra).length)) :
    ∃ o, main false ra cols su = Except.ok o ∧
      o.map_incidents_per_capita = none ∧
      o.map_urban_classification = none ∧
      o.map_housing_typology = none ∧
      o.folium_note = true ∧
      o.chart_urban_comparison =
        (create_bar_chart su "chart_urban_comparison.png").1 ∧
      o.table_summary = create_summary_table_image cols
        ((create_bar_chart su "chart_urban_comparison.png").2)
        "table_summary.png" ∧
      ∃ sc, create_scatter_plot ra "chart_housing_correlation.png" =
          Except.ok sc ∧
        o.chart_housing_correlation = sc := by
  have hE : regressionData ra ≠ [] := by
    rw [regressionData]
    simpa [List.map_eq_nil_iff] using h
  obtain ⟨out, hout⟩ : ∃ out,
      create_scatter_plot ra "chart_housing_correlation.png" =
        Except.ok out := by
    cases hsc : create_scatter_plot ra "chart_housing_correlation.png" with
    | error e =>
      rw [create_scatter_plot] at hsc
      rw [linregress, if_neg (by simpa [List.isEmpty_iff] using hE),
        if_neg hI] at hsc
      cases hsc
    | ok out => exact ⟨out, rfl⟩
  refine ⟨⟨none, none, none,
      (create_bar_chart su "chart_urban_comparison.png").1, out,
      create_summary_table_image cols
        ((create_bar_chart su "chart_urban_comparison.png").2)
        "table_summary.png",
      true⟩, ?_, rfl, rfl, rfl, rfl, rfl, rfl, out, hout, rfl⟩
  simp [main, hout]

/-- Witness for C6 at a concrete run with one valid response area. -/
theorem main_no_folium_witness :
    ∃ o, main false [rowValid] cols5 suCex = Except.ok o ∧
      o.map_incidents_per_capita = none ∧
      o.map_urban_classification = none ∧
      o.map_housing_typology = none ∧
      o.folium_note = true ∧
      o.chart_urban_comparison =
        (create_bar_chart suCex "chart_urban_comparison.png").1 ∧
      o.table_summary = create_summary_table_image cols5
        ((create_bar_chart suCex "chart_urban_comparison.png").2)
        "table_summary.png" ∧
      ∃ sc, create_scatter_plot [rowValid] "chart_housing_correlation.png" =
          Except.ok sc ∧
        o.chart_housing_correlation = sc :=
  main_no_folium_degrades_gracefully [rowValid] cols5 suCex (by decide)
    (by decide)

/-! ### C7: absent summary columns are omitted, not fatal -/

theorem mem_table_colLabels_iff (cols : List String)
    (rows : List SummaryRow) (f d : String) :
    d ∈ (create_summary_table_image cols rows f).colLabels ↔
      ∃ p ∈ display_cols, p.1 ∈ cols ∧ p.2 = d := by
  simp [create_summary_table_image, List.mem_filter, List.contains,
    List.elem_iff]

/-- C7: an expected source column absent from the input is omitted from the
rendered table's header while the present ones keep their display labels,
and every body row still aligns with the header — the renderer is a total
function, so no error is possible. -/
theorem summary_table_omits_absent_columns
    (cols : List String) (rows : List SummaryRow) (f : String)
    (src disp src2 disp2 : String) (cellsRow : List Cell)
    (hmem : (src, disp) ∈ display_cols) (habs : src ∉ cols)
    (hmem2 : (src2, disp2) ∈ display_cols) (hpres : src2 ∈ cols)
    (hcr : cellsRow ∈ (create_summary_table_image cols rows f).cellText) :
    disp ∉ (create_summary_table_image cols rows f).colLabels ∧
    disp2 ∈ (create_summary_table_image cols rows f).colLabels ∧
    cellsRow.length =
      (create_summary_table_image cols rows f).colLabels.length := by
  refine ⟨?_, ?_, ?_⟩
  · intro hd
    rw [mem_table_colLabels_iff] at hd
    obtain ⟨p, hp, hc1, hc2⟩ := hd
    fin_cases hmem <;> fin_cases hp <;> simp_all
  · rw [mem_table_colLabels_iff]
    exact ⟨(src2, disp2), hmem2, hpres, rfl⟩
  · obtain ⟨r, _, rfl⟩ :=
      List.mem_map.mp (by simpa [create_summary_table_image] using hcr)
    simp [create_summary_table_image]

/-- Witness for C7: the summary file lacks `total_incidents`; the rendered
header omits `Total Incidents`, keeps `Classification`, and the first body
row has one cell per remaining column. -/
theorem summary_table_omits_absent_columns_witness :
    "Total Incidents" ∉
      (create_summary_table_image cols4 suCex
        "table_summary.png").colLabels ∧
    "Classification" ∈
      (create_summary_table_image cols4 suCex
        "table_summary.png").colLabels ∧
    (List.length
      [Cell.classification (some "outer_suburban"),
       Cell.thousands (some 1000), Cell.rate2 (some 3),
       Cell.pct1 (some 30)]) =
      (create_summary_table_image cols4 suCex
        "table_summary.png").colLabels.length :=
  summary_table_omits_absent_columns cols4 suCex "table_summary.png"
    "total_incidents" "Total Incidents" "urban_class" "Classification"
    [Cell.classification (some "outer_suburban"),
     Cell.thousands (some 1000), Cell.rate2 (some 3), Cell.pct1 (some 30)]
    (by decide) (by decide) (by decide) (by decide) (by decide)

/-! ### C9: the bar chart mutates the shared summary frame -/

/-- C9: the categorical assignment inside `create_bar_chart` mutates the
caller's summary frame — a row whose `urban_class` lies outside the fixed
three-class set comes back with a missing `urban_class`; `main` hands that
same mutated frame to `create_summary_table_image`, whose body then shows a
missing Classification cell for that row. -/
theorem bar_chart_mutates_shared_frame
    (cols : List String) (su : List SummaryRow) (ra : List ResponseAreaRow)
    (hasFolium : Bool) (i : Nat) (r : SummaryRow) (c : String)
    (hi : su[i]? = some r) (hc : r.urban_class = some c) (hout : c ∉ order)
    (hcols : "urban_class" ∈ cols) :
    ((create_bar_chart su "chart_urban_comparison.png").2)[i]? =
      some (toCategorical r) ∧
    (toCategorical r).urban_class = none ∧
    Except.map (fun o => o.table_summary) (main hasFolium ra cols su) =
      Except.map (fun _ => create_summary_table_image cols
          ((create_bar_chart su "chart_urban_comparison.png").2)
          "table_summary.png")
        (create_scatter_plot ra "chart_housing_correlation.png") ∧
    ∃ cells,
      (create_summary_table_image cols
        ((create_bar_chart su "chart_urban_comparison.png").2)
        "table_summary.png").cellText[i]? = some cells ∧
      Cell.classification none ∈ cells := by
  have h2 : (toCategorical r).urban_class = none := by
    simp [toCategorical, hc, hout]
  refine ⟨?_, h2, ?_, ?_⟩
  · show (su.map toCategorical)[i]? = some (toCategorical r)
    rw [List.getElem?_map, hi]
    rfl
  · cases hsc : create_scatter_plot ra "chart_housing_correlation.png" with
    | error e => simp [main, hsc, Except.map]
    | ok sc => simp [main, hsc, Except.map]
  · refine ⟨(display_cols.filter (fun p => cols.contains p.1)).map
        (fun p => formatCell p.1 (toCategorical r)), ?_, ?_⟩
    · show ((su.map toCategorical).map
        (fun row => (display_cols.filter (fun p => cols.contains p.1)).map
          (fun p => formatCell p.1 row)))[i]? = _
      rw [List.getElem?_map, List.getElem?_map, hi]
      rfl
    · rw [List.mem_map]
      refine ⟨("urban_class", "Classification"), ?_, ?_⟩
      · rw [List.mem_filter]
        exact ⟨by decide, by simpa [List.contains, List.elem_iff] using hcols⟩
      · show formatCell "urban_class" (toCategorical r) =
          Cell.classification none
        rw [show formatCell "urban_class" (toCategorical r) =
          Cell.classification (toCategorical r).urban_class from rfl, h2]

/-- Witness for C9: the `unknown` row of the counterexample table (index 3)
comes back from the bar chart with a missing class, and the table image
that `main` renders afterwards from the shared frame shows a missing
Classification cell on that row. -/
theorem bar_chart_mutates_shared_frame_witness :
    ((create_bar_chart suCex "chart_urban_comparison.png").2)[3]? =
      some (toCategorical
        { urban_class := some "unknown", population := some 4000,
          total_incidents := some 16, incidents_per_1000_pop := some 4,
          pct_single_family := some 40 }) ∧
    (toCategorical
      { urban_class := some "unknown", population := some 4000,
        total_incidents := some 16, incidents_per_1000_pop := some 4,
        pct_single_family := some 40 }).urban_class = none ∧
    Except.map (fun o => o.table_summary) (main true [rowValid] cols5 suCex) =
      Except.map (fun _ => create_summary_table_image cols5
          ((create_bar_chart suCex "chart_urban_comparison.png").2)
          "table_summary.png")
        (create_scatter_plot [rowValid] "chart_housing_correlation.png") ∧
    ∃ cells,
      (create_summary_table_image cols5
        ((create_bar_chart suCex "chart_urban_comparison.png").2)
        "table_summary.png").cellText[3]? = some cells ∧
      Cell.classification none ∈ cells :=
  bar_chart_mutates_shared_frame cols5 suCex [rowValid] true 3
    { urban_class := some "unknown", population := some 4000,
      total_incidents := some 16, incidents_per_1000_pop := some 4,
      pct_single_family := some 40 }
    "unknown" (by decide) (by decide) (by decide) (by decide)

/-! ### C8: OLS identities of the fitted line -/

theorem sumY_eq_two_sumX (pts : List (ℚ × ℚ))
    (h : ∀ p ∈ pts, p.2 = 2 * p.1) : sumY pts = 2 * sumX pts := by
  induction pts with
  | nil => simp [sumX, sumY]
  | cons p ps ih =>
    have hp := h p (List.mem_cons_self p ps)
    have ihh := ih (fun q hq => h q (List.mem_cons_of_mem p hq))
    simp only [sumY, sumX, List.map_cons, List.sum_cons] at ihh ⊢
    rw [hp, ihh]
    ring

theorem sumXY_eq_two_sumX2 (pts : List (ℚ × ℚ))
    (h : ∀ p ∈ pts, p.2 = 2 * p.1) : sumXY pts = 2 * sumX2 pts := by
  induction pts with
  | nil => simp [sumXY, sumX2]
  | cons p ps ih =>
    have hp := h p (List.mem_cons_self p ps)
    have ihh := ih (fun q hq => h q (List.mem_cons_of_mem p hq))
    simp only [sumXY, sumX2, List.map_cons, List.sum_cons] at ihh ⊢
    rw [hp, ihh]
    ring

theorem sumY2_eq_four_sumX2 (pts : List (ℚ × ℚ))
    (h : ∀ p ∈ pts, p.2 = 2 * p.1) : sumY2 pts = 4 * sumX2 pts := by
  induction pts with
  | nil => simp [sumY2, sumX2]
  | cons p ps ih =>
    have hp := h p (List.mem_cons_self p ps)
    have ihh := ih (fun q hq => h q (List.mem_cons_of_mem p hq))
    simp only [sumY2, sumX2, List.map_cons, List.sum_cons] at ihh ⊢
    rw [hp, ihh]
    ring

theorem sSxy_of_double (pts : List (ℚ × ℚ))
    (h : ∀ p ∈ pts, p.2 = 2 * p.1) : sSxy pts = 2 * sSxx pts := by
  unfold sSxy sSxx
  rw [sumXY_eq_two_sumX2 pts h, sumY_eq_two_sumX pts h]
  ring

theorem sSyy_of_double (pts : List (ℚ × ℚ))
    (h : ∀ p ∈ pts, p.2 = 2 * p.1) : sSyy pts = 4 * sSxx pts := by
  unfold sSyy sSxx
  rw [sumY2_eq_four_sumX2 pts h, sumY_eq_two_sumX pts h]
  ring

theorem sums_of_const_x (x0 : ℚ) (pts : List (ℚ × ℚ))
    (h : ∀ p ∈ pts, p.1 = x0) :
    sumX pts = pts.length * x0 ∧ sumX2 pts = pts.length * (x0 * x0) := by
  induction pts with
  | nil => simp [sumX, sumX2]
  | cons p ps ih =>
    have hp := h p (List.mem_cons_self p ps)
    obtain ⟨i1, i2⟩ := ih (fun q hq => h q (List.mem_cons_of_mem p hq))
    constructor
    · simp only [sumX, List.map_cons, List.sum_cons, List.length_cons]
        at i1 ⊢
      rw [hp, i1]
      push_cast
      ring
    · simp only [sumX2, List.map_cons, List.sum_cons, List.length_cons]
        at i2 ⊢
      rw [hp, i2]
      push_cast
      ring

theorem sSxx_eq_zero_of_allXIdentical (pts : List (ℚ × ℚ))
    (h : allXIdentical pts = true) : sSxx pts = 0 := by
  cases pts with
  | nil => simp [sSxx, sumX, sumX2]
  | cons p rest =>
    have hall : ∀ q ∈ p :: rest, q.1 = p.1 := by
      intro q hq
      rcases List.mem_cons.mp hq with h1 | h2
      · rw [h1]
      · exact of_decide_eq_true (List.all_eq_true.mp h q h2)
    obtain ⟨h1, h2⟩ := sums_of_const_x p.1 (p :: rest) hall
    rw [sSxx, h1, h2]
    ring

/-- C8: on any response-area table whose filtered rows satisfy
`incidents_per_1000_pop = 2 × pct_single_family` exactly (with non-constant
x, expressed as `0 < sSxx`), the scatter plot's fit satisfies the OLS
identities: slope `2`, intercept `0`, and correlation coefficient
`sSxy / √(sSxx·sSyy)` equal to `1`. -/
theorem scatter_fit_ols_identities
    (gdf : List ResponseAreaRow) (f : String)
    (hrow : ∀ r ∈ scatter_valid gdf,
      r.incidents_per_1000_pop =
        Option.map (fun x => 2 * x) r.pct_single_family)
    (hx : 0 < sSxx (regressionData gdf)) :
    ∃ out, create_scatter_plot gdf f = Except.ok out ∧
      out.slope = 2 ∧ out.intercept = 0 ∧
      ((sSxy (regressionData gdf) : ℝ) /
        Real.sqrt ((sSxx (regressionData gdf) : ℝ) *
          (sSyy (regressionData gdf) : ℝ)) = 1) := by
  have h2x : ∀ p ∈ regressionData gdf, p.2 = 2 * p.1 := by
    intro p hp
    rw [regressionData] at hp
    obtain ⟨r, hr, rfl⟩ := List.mem_map.mp hp
    have hk : scatterKeep r = true := (List.mem_filter.mp hr).2
    obtain ⟨-, hpct, -, -⟩ := (scatterKeep_eq_true_iff r).mp hk
    obtain ⟨x, hxx⟩ := Option.isSome_iff_exists.mp hpct
    have hinc := hrow r hr
    rw [hxx] at hinc
    simp [hxx, hinc]
  have hne : regressionData gdf ≠ [] := by
    intro hE
    rw [hE] at hx
    norm_num [sSxx, sumX, sumX2] at hx
  have hguard : ¬(allXIdentical (regressionData gdf) = true ∧
      1 < (regressionData gdf).length) := fun hid =>
    absurd (sSxx_eq_zero_of_allXIdentical _ hid.1) (ne_of_gt hx)
  have hslope : fitSlope (regressionData gdf) = 2 := by
    rw [fitSlope, sSxy_of_double _ h2x, mul_div_assoc,
      div_self (ne_of_gt hx), mul_one]
  have hicpt : fitIntercept (regressionData gdf) = 0 := by
    rw [fitIntercept, hslope, sumY_eq_two_sumX _ h2x]
    ring_nf
  refine ⟨⟨s!"outputs/{f}", regressionData gdf,
    fitSlope (regressionData gdf), fitIntercept (regressionData gdf)⟩,
    ?_, hslope, hicpt, ?_⟩
  · have hlin : linregress (regressionData gdf) =
        Except.ok (fitSlope (regressionData gdf),
          fitIntercept (regressionData gdf)) := by
      rw [linregress, if_neg (by simpa [List.isEmpty_iff] using hne),
        if_neg hguard]
    simp [create_scatter_plot, hlin]
  · rw [sSxy_of_double _ h2x, sSyy_of_double _ h2x]
    have hS : (0 : ℝ) < (sSxx (regressionData gdf) : ℝ) := by
      exact_mod_cast hx
    push_cast
    rw [show (sSxx (regressionData gdf) : ℝ) *
        (4 * (sSxx (regressionData gdf) : ℝ)) =
        (2 * (sSxx (regressionData gdf) : ℝ)) ^ 2 by ring,
      Real.sqrt_sq (by positivity)]
    exact div_self (by positivity)

/-- Witness for C8: two filtered rows lying exactly on `y = 2x`
(pct 10 → rate 20, pct 30 → rate 60) give slope 2, intercept 0, r = 1. -/
theorem scatter_fit_ols_identities_witness :
    ∃ out, create_scatter_plot gdfFit "chart_housing_correlation.png" =
        Except.ok out ∧
      out.slope = 2 ∧ out.intercept = 0 ∧
      ((sSxy (regressionData gdfFit) : ℝ) /
        Real.sqrt ((sSxx (regressionData gdfFit) : ℝ) *
          (sSyy (regressionData gdfFit) : ℝ)) = 1) :=
  scatter_fit_ols_identities gdfFit "chart_housing_correlation.png"
    (by
      intro r hr
      rw [show scatter_valid gdfFit = [rowFit1, rowFit2] from by decide] at hr
      fin_cases hr
      · show (some 20 : Option ℚ) = Option.map (fun x => 2 * x) (some 10)
        norm_num
      · show (some 60 : Option ℚ) = Option.map (fun x => 2 * x) (some 30)
        norm_num)
    (by
      rw [show regressionData gdfFit = [(10, 20), (30, 60)] from by decide]
      norm_num [sSxx, sumX, sumX2])

end FireViz
